import Mathlib

/-!
Shallow embedding of `index_darshan_logs.py` (Darshan-log classification):
the aggregation of per-file, per-API byte counters (`get_biggest_api`),
the per-filesystem aggregation with longest mount-prefix resolution
(`get_biggest_fs`, `_identify_fs_from_path`), the mount-to-logical-name
canonicalization (`MountToFsName.convert`), and the threshold-based
classifier (`classify_darshanlog`).

Python dictionaries are modelled as association lists in insertion order
(CPython dicts iterate in insertion order), Python exceptions as an
explicit `Except PyError` result, byte counters as `Nat` (the data model
declares byte counts with "absent or zero means no activity recorded"),
and the float division at line 109 of the source as exact division in `ℚ`.
-/

set_option autoImplicit false
set_option synthInstance.maxSize 1024

/-- Python exceptions that the classification pipeline can raise. -/
inductive PyError where
  | keyError (key : String)
  | valueError
  | zeroDivisionError
deriving DecidableEq, Repr

/-- One Darshan counter record; only the two counters the program reads.
`none` models an absent `BYTES_READ` / `BYTES_WRITTEN` key (`record.get`
returns `None`). -/
structure Record where
  bytesRead : Option Nat := none
  bytesWritten : Option Nat := none
deriving DecidableEq, Repr

/-- `counters[api][file_path]` : record-id → counter bag. -/
abbrev Records := List (String × Record)

/-- `counters[api]` : file path → records. -/
abbrev FileCounters := List (String × Records)

/-- `counters` : API name → per-file records. -/
abbrev Counters := List (String × FileCounters)

/-- The `header` record of the parsed darshan log.  `nprocs` and
`start_time` are `none` when the corresponding key is missing. -/
structure Header where
  nprocs : Option Int := none
  start_time : Option Int := none
  exe : List String := []
deriving DecidableEq, Repr

/-- The parts of the parsed `Darshan` object that the program reads:
the `counters` mapping (absent when the key is missing), the keys of the
`mounts` mapping (in insertion order), and the header. -/
structure DarshanData where
  counters : Option Counters := none
  mounts : List String := []
  header : Header := {}
deriving DecidableEq, Repr

/-- The running totals `biggest_api[api_name]` (source lines 151-156). -/
structure ApiTotals where
  write : Nat := 0
  read : Nat := 0
  write_files : Nat := 0
  read_files : Nat := 0
deriving DecidableEq, Repr

/-- Lines 160-168: add one record to an API's totals.  `if bytes_read:`
is Python truthiness — skipped when the counter is `None` or `0`. -/
def addRecordApi (t : ApiTotals) (r : Record) : ApiTotals :=
  let t1 := match r.bytesRead with
    | some b => if b ≠ 0 then { t with read := t.read + b, read_files := t.read_files + 1 } else t
    | none => t
  match r.bytesWritten with
    | some b => if b ≠ 0 then { t1 with write := t1.write + b, write_files := t1.write_files + 1 } else t1
    | none => t1

/-- Lines 157-168: fold one API's files into its totals, skipping file
paths that start with an underscore. -/
def apiTotalsOfFiles (files : FileCounters) : ApiTotals :=
  files.foldl
    (fun t p =>
      if p.1.startsWith "_" then t
      else p.2.foldl (fun t2 q => addRecordApi t2 q.2) t)
    {}

/-- Python `max(dict, key=f)` over an association list: returns the first
entry attaining the maximum of `f`, or `none` on an empty list (where
Python raises `ValueError`). -/
def pyMaxBy {α : Type} (l : List (String × α)) (f : α → Nat) : Option (String × α) :=
  match l with
  | [] => none
  | p :: rest => some (rest.foldl (fun b q => if f q.2 > f b.2 then q else b) p)

/-- The dictionary returned by `get_biggest_api` (lines 170-177) when the
counters are present. -/
structure ApiResults where
  biggest_read_api : String
  biggest_read_api_bytes : Nat
  biggest_read_api_files : Nat
  biggest_write_api : String
  biggest_write_api_bytes : Nat
  biggest_write_api_files : Nat
deriving DecidableEq, Repr

/-- Lines 142-177.  `Except.ok none` models the `return {}` for an absent
`counters` key; `Except.error .valueError` models the `ValueError` that
`max` raises over an empty dict when `counters` is present but empty. -/
def get_biggest_api (dd : DarshanData) : Except PyError (Option ApiResults) :=
  match dd.counters with
  | none => .ok none
  | some cs =>
    let biggest := cs.map (fun p => (p.1, apiTotalsOfFiles p.2))
    match pyMaxBy biggest (·.read), pyMaxBy biggest (·.write) with
    | some pr, some pw =>
      .ok (some
        { biggest_read_api := pr.1
          biggest_read_api_bytes := pr.2.read
          biggest_read_api_files := pr.2.read_files
          biggest_write_api := pw.1
          biggest_write_api_bytes := pw.2.write
          biggest_write_api_files := pw.2.write_files })
    | _, _ => .error .valueError

/-- The running totals `biggest_fs[key]` (source line 205). -/
structure FsTotals where
  write : Nat := 0
  read : Nat := 0
deriving DecidableEq, Repr

/-- One step of the loop of `_identify_fs_from_path` (lines 229-232):
`acc` is the pair `(max_match, matching_mount)`. -/
def identStep (path : String) (acc : Nat × Option String) (m : String) : Nat × Option String :=
  if path.startsWith m ∧ m.length > acc.1 then (m.length, some m) else acc

/-- Lines 221-233: longest literal string-prefix match of `path` against
the mount list; `none` when no mount matches. -/
def _identify_fs_from_path (path : String) (mounts : List String) : Option String :=
  (mounts.foldl (identStep path) (0, none)).2

/-- Lines 201-203: the filesystem key of a path — the longest matching
mount, or the `'_unknown'` sentinel when `_identify_fs_from_path`
returns `None`. -/
def fsKey (path : String) (mounts : List String) : String :=
  match _identify_fs_from_path path mounts with
  | none => "_unknown"
  | some k => k

/-- Lines 206-208: `if bytes_read is not None: ... += bytes_read`;
adding 0 when the counter is absent is the same as not adding. -/
def recReadDelta (r : Record) : Nat :=
  match r.bytesRead with
  | some b => b
  | none => 0

/-- Lines 209-211, write-direction analogue of `recReadDelta`. -/
def recWriteDelta (r : Record) : Nat :=
  match r.bytesWritten with
  | some b => b
  | none => 0

/-- Lines 204-211: `if key not in biggest_fs: biggest_fs[key] = {0,0}`
followed by the `+=` updates — update the first entry with the key, or
append a fresh entry at the end (dict insertion order). -/
def addAt : List (String × FsTotals) → String → Nat → Nat → List (String × FsTotals)
  | [], key, dr, dw => [(key, { read := dr, write := dw })]
  | (k, v) :: rest, key, dr, dw =>
    if k = key then (k, { read := v.read + dr, write := v.write + dw }) :: rest
    else (k, v) :: addAt rest key dr dw

/-- Lines 197-211: fold one file's records into `biggest_fs`, skipping
the literal file paths `'_perf'` and `'_total'` (and only those). -/
def addFileFs (al : List (String × FsTotals)) (mounts : List String)
    (fp : String) (recs : Records) : List (String × FsTotals) :=
  if fp = "_perf" ∨ fp = "_total" then al
  else recs.foldl (fun a q => addAt a (fsKey fp mounts) (recReadDelta q.2) (recWriteDelta q.2)) al

/-- Lines 197-211: fold all files of one API into `biggest_fs`. -/
def fsAListOfApi (al : List (String × FsTotals)) (mounts : List String)
    (files : FileCounters) : List (String × FsTotals) :=
  files.foldl (fun a p => addFileFs a mounts p.1 p.2) al

/-- The dictionary returned by `get_biggest_fs` (lines 213-219) when the
counters are present. -/
structure FsResults where
  biggest_read_fs : String
  biggest_read_fs_bytes : Nat
  biggest_write_fs : String
  biggest_write_fs_bytes : Nat
deriving DecidableEq, Repr

/-- First-match association-list lookup (Python dict subscript / `.get`). -/
def lookupList {β : Type} (k : String) : List (String × β) → Option β
  | [] => none
  | p :: rest => if p.1 = k then some p.2 else lookupList k rest

/-- Lines 179-219.  In the classification flow the keys
`'biggest_read_api'`/`'biggest_write_api'` are never present in the
`Darshan` object, so the dominant APIs are always recomputed via
`get_biggest_api` (lines 186-189).  `Except.ok none` models `return {}`
for an absent `counters` key; `Except.error .valueError` models the
`ValueError` raised by `max` over an empty dict.  The two `.error`
fallbacks for the lookups are unreachable: the dominant APIs returned by
`get_biggest_api` are keys of `counters`. -/
def get_biggest_fs (dd : DarshanData) : Except PyError (Option FsResults) :=
  match dd.counters with
  | none => .ok none
  | some cs =>
    match get_biggest_api dd with
    | .error e => .error e
    | .ok none => .error .valueError
    | .ok (some api) =>
      match lookupList api.biggest_read_api cs, lookupList api.biggest_write_api cs with
      | some fcR, some fcW =>
        -- line 196: `for api_name in biggest_read_api, biggest_write_api` —
        -- the tuple always has two elements, also when the two APIs coincide
        let al := fsAListOfApi (fsAListOfApi [] dd.mounts fcR) dd.mounts fcW
        match pyMaxBy al (·.read), pyMaxBy al (·.write) with
        | some pr, some pw =>
          .ok (some
            { biggest_read_fs := pr.1
              biggest_read_fs_bytes := pr.2.read
              biggest_write_fs := pw.1
              biggest_write_fs_bytes := pw.2.write })
        | _, _ => .error .valueError
      | _, _ => .error (.keyError "api")

/-- Lines 42-60: `MountToFsName.convert`.  A compiled regular expression
is modelled as its match test `String → Bool` (for the hard-coded literal
pattern `'/project'`, `re.match` succeeds exactly on strings starting
with `/project`); the rules are the ordered entries of
`self.mount_regex`, tried first-match-first. -/
def MountToFsName.convert (rules : List ((String → Bool) × String)) (mount : String) : String :=
  if mount = "/" then mount
  else
    match rules.find? (fun p => p.1 mount) with
    | some p => p.2
    | none => mount

/-- Lines 31-40: the converter built by `MountToFsName.__init__` — the
configured rules followed by the hard-coded `'/project' → 'mira-fs1'`
rule appended last. -/
def mkMountRules (configRules : List ((String → Bool) × String)) :
    List ((String → Bool) × String) :=
  configRules ++ [(fun m => m.startsWith "/project", "mira-fs1")]

/-- Lines 18-26: the static `FSNAME_TO_SYSTEM` table. -/
def FSNAME_TO_SYSTEM : List (String × String) :=
  [("mira-fs1", "mira"),
   ("scratch1", "edison"),
   ("scratch2", "edison"),
   ("scratch3", "edison"),
   ("cscratch", "cori"),
   ("bb-shared", "cori"),
   ("bb-private", "cori")]

/-- Lines 92-103: the read-vs-write decision.  Returns
`(read_or_write label, file_system, most_files)`. -/
def readWriteDecision (R W : Nat) (readFs writeFs : String)
    (readFiles writeFiles : Nat) : String × String × Nat :=
  if R > 10 * W then ("read", readFs, readFiles)
  else if W > 10 * R then ("write", writeFs, writeFiles)
  else ("unknown", "unknown", 0)

/-- Line 109: `float(most_files) / float(nprocs)`, modelled as exact
division in `ℚ`. -/
def filesPerProc (mostFiles : Nat) (nprocs : Int) : ℚ :=
  (mostFiles : ℚ) / (nprocs : ℚ)

/-- Lines 109-115: the shared-vs-fpp decision (`0.90 : ℚ` and
`0.10 : ℚ` are exactly `9/10` and `1/10`, the values the source
literals denote up to float rounding). -/
def sharedOrFpp (mostFiles : Nat) (nprocs : Int) : String :=
  if filesPerProc mostFiles nprocs > (0.90 : ℚ) then "fpp"
  else if filesPerProc mostFiles nprocs < (0.10 : ℚ) then "shared"
  else "unknown"

/-- `os.path.basename` for the paths this program feeds it. -/
def basename (path : String) : String :=
  (path.splitOn "/").getLastD path

/-- Lines 135-138: `os.path.basename(header['exe'][0])`; an empty `exe`
list raises `IndexError`, caught and degraded to an absent field with a
warning. -/
def applicationOf (exe : List String) : Option String :=
  match exe with
  | [] => none
  | e :: _ => some (basename e)

/-- The result dict of `classify_darshanlog` in the successful case.
`date` and `start_time` would be `none` only if the missing-`start_time`
handler did not itself crash (see `classify_darshanlog`). -/
structure ClassificationResult where
  read_or_write : String
  file_system : String
  compute_system : String
  shared_or_fpp : String
  date : Option String := none
  start_time : Option Int := none
  log_file : String
  md5 : String
  application : Option String := none
deriving DecidableEq, Repr

/-- Lines 84-138 in the successful case: the result record built from
the aggregates, header fields and file metadata.  `strftime` abstracts
the `datetime...strftime('%Y-%m-%d')` formatting; `lf` and `md` are the
basename of the input path and its md5 digest (file I/O outside the
classification logic). -/
def classifyCore (rules : List ((String → Bool) × String)) (strftime : Int → String)
    (api : ApiResults) (fs : FsResults) (n : Int) (st : Int) (exe : List String)
    (lf md : String) : ClassificationResult :=
  let brf := MountToFsName.convert rules fs.biggest_read_fs
  let bwf := MountToFsName.convert rules fs.biggest_write_fs
  let d := readWriteDecision api.biggest_read_api_bytes api.biggest_write_api_bytes
    brf bwf api.biggest_read_api_files api.biggest_write_api_files
  { read_or_write := d.1
    file_system := d.2.1
    compute_system := (lookupList d.2.1 FSNAME_TO_SYSTEM).getD "unknown"
    shared_or_fpp := sharedOrFpp d.2.2 n
    date := some (strftime st)
    start_time := some st
    log_file := lf
    md5 := md
    application := applicationOf exe }

/-- Lines 62-140: `classify_darshanlog`, given the parsed log `dd` (the
trace-reader collaborator is outside the classification logic).
Failure modelling, in source order:
* `counters` absent → both aggregators return `{}` and line 86
  (`features['biggest_write_fs']`) raises `KeyError`;
* errors of `get_biggest_api` / `get_biggest_fs` propagate;
* `header['nprocs']` missing → `KeyError` at line 109;
* `nprocs == 0` → `float` division by zero raises `ZeroDivisionError`;
* `header['start_time']` missing → the `except` handler at line 123
  formats `result['log_file']`, a key that is only assigned at line 126,
  so the handler itself raises `KeyError('log_file')`. -/
def classify_darshanlog (rules : List ((String → Bool) × String))
    (strftime : Int → String) (dd : DarshanData) (lf md : String) :
    Except PyError ClassificationResult :=
  match get_biggest_api dd with
  | .error e => .error e
  | .ok none => .error (.keyError "biggest_write_fs")
  | .ok (some api) =>
    match get_biggest_fs dd with
    | .error e => .error e
    | .ok none => .error (.keyError "biggest_write_fs")
    | .ok (some fs) =>
      match dd.header.nprocs with
      | none => .error (.keyError "nprocs")
      | some n =>
        if n = 0 then .error .zeroDivisionError
        else
          match dd.header.start_time with
          | none => .error (.keyError "log_file")
          | some st => .ok (classifyCore rules strftime api fs n st dd.header.exe lf md)

/-- First-match read-byte total of a filesystem key in `biggest_fs`
(0 when the key has no entry). -/
def lookRead : List (String × FsTotals) → String → Nat
  | [], _ => 0
  | p :: rest, k => if p.1 = k then p.2.read else lookRead rest k

/-- First-match write-byte total of a filesystem key in `biggest_fs`
(0 when the key has no entry). -/
def lookWrite : List (String × FsTotals) → String → Nat
  | [], _ => 0
  | p :: rest, k => if p.1 = k then p.2.write else lookWrite rest k

/-- Declarative sum of the `BYTES_READ` deltas of one file's records. -/
def specFileReadSum (recs : Records) : Nat :=
  (recs.map (fun q => recReadDelta q.2)).sum

/-- Declarative sum of the `BYTES_WRITTEN` deltas of one file's records. -/
def specFileWriteSum (recs : Records) : Nat :=
  (recs.map (fun q => recWriteDelta q.2)).sum

/-- Declarative read-byte total that one API contributes to filesystem
key `k`: the sum over its files — excluding the literal `'_perf'` and
`'_total'` rows — whose path resolves to `k`. -/
def specApiFsRead (files : FileCounters) (mounts : List String) (k : String) : Nat :=
  (files.map (fun p =>
    if p.1 = "_perf" ∨ p.1 = "_total" then 0
    else if fsKey p.1 mounts = k then specFileReadSum p.2 else 0)).sum

/-- Write-direction analogue of `specApiFsRead`. -/
def specApiFsWrite (files : FileCounters) (mounts : List String) (k : String) : Nat :=
  (files.map (fun p =>
    if p.1 = "_perf" ∨ p.1 = "_total" then 0
    else if fsKey p.1 mounts = k then specFileWriteSum p.2 else 0)).sum

/-- Modelled from the spec words of claim C5 (not from the source): the
read-byte total attributed to filesystem key `k` when the files under
the dominant read API and the dominant write API are counted with *each
file's records counted once* (a coinciding dominant API is counted a
single time) and with *all* underscore-prefixed synthetic rows
excluded. -/
def claimFsRead (cs : Counters) (mounts : List String) (rApi wApi k : String) : Nat :=
  ((if rApi = wApi then [rApi] else [rApi, wApi]).map (fun api =>
    (((lookupList api cs).getD []).map (fun p =>
      if p.1.startsWith "_" then 0
      else if fsKey p.1 mounts = k then specFileReadSum p.2 else 0)).sum)).sum

/-- Example trace: one API `POSIX`, one real file with all-zero
counters, 4 processes — both dominance byte totals are 0. -/
def exDD1 : DarshanData :=
  { counters := some [("POSIX", [("/a", [("0", { bytesRead := some 0, bytesWritten := some 0 })])])],
    mounts := [],
    header := { nprocs := some 4, start_time := some 100, exe := ["/bin/app"] } }

/-- The `get_biggest_api` output on `exDD1`. -/
def exApi1 : ApiResults :=
  { biggest_read_api := "POSIX", biggest_read_api_bytes := 0, biggest_read_api_files := 0,
    biggest_write_api := "POSIX", biggest_write_api_bytes := 0, biggest_write_api_files := 0 }

/-- The classification result of `exDD1`. -/
def exRes1 : ClassificationResult :=
  { read_or_write := "unknown", file_system := "unknown", compute_system := "unknown",
    shared_or_fpp := "shared", date := some "d", start_time := some 100,
    log_file := "l", md5 := "m", application := some "app" }

theorem string_length_zero {s : String} (h : s.length = 0) : s = "" := by
  obtain ⟨data⟩ := s
  cases data with
  | nil => rfl
  | cons c cs => simp [String.length] at h

/-- C9: `MountToFsName.convert` returns exactly one string and never
fails (it is a total function into `String`); the literal path `/` is
returned unchanged regardless of the rules; and when no rule matches
the mount, the mount string itself is returned unchanged. -/
theorem c9_convert_total (rules : List ((String → Bool) × String)) (mount : String) :
    MountToFsName.convert rules "/" = "/" ∧
    ((∀ p ∈ rules, p.1 mount = false) → MountToFsName.convert rules mount = mount) := by
  constructor
  · simp [MountToFsName.convert]
  · intro h
    unfold MountToFsName.convert
    by_cases hm : mount = "/"
    · simp [hm]
    · rw [if_neg hm]
      have hf : rules.find? (fun p => p.1 mount) = none :=
        List.find?_eq_none.mpr (fun p hp => by simp [h p hp])
      simp [hf]

theorem c9_witness :
    MountToFsName.convert [((fun m => m.startsWith "/gpfs"), "gpfs-fs")] "/" = "/" ∧
    MountToFsName.convert [((fun m => m.startsWith "/gpfs"), "gpfs-fs")] "/home/x" = "/home/x" :=
  ⟨(c9_convert_total [((fun m => m.startsWith "/gpfs"), "gpfs-fs")] "/home/x").1,
   (c9_convert_total [((fun m => m.startsWith "/gpfs"), "gpfs-fs")] "/home/x").2
     (by intro p hp; rw [List.mem_singleton.mp hp]; with_unfolding_all decide)⟩

theorem identFold_char (path : String) (mounts : List String) : ∀ (mm : Nat) (best : Option String),
    (mounts.foldl (identStep path) (mm, best) = (mm, best)
       ∧ ∀ m ∈ mounts, path.startsWith m → m.length ≤ mm)
  ∨ (∃ m ∈ mounts, path.startsWith m ∧ mm < m.length
       ∧ mounts.foldl (identStep path) (mm, best) = (m.length, some m)
       ∧ ∀ m2 ∈ mounts, path.startsWith m2 → m2.length ≤ m.length) := by
  induction mounts with
  | nil => intro mm best; left; simp
  | cons m rest ih =>
    intro mm best
    simp only [List.foldl_cons]
    by_cases h : path.startsWith m ∧ m.length > mm
    · rw [show identStep path (mm, best) m = (m.length, some m) by
        simp [identStep, h.1, h.2]]
      rcases ih m.length (some m) with ⟨heq, hmax⟩ | ⟨m2, hmem, hsw, hlt, heq, hmax⟩
      · right
        refine ⟨m, List.mem_cons_self m rest, h.1, h.2, heq, ?_⟩
        intro m2 hm2 hsw2
        rcases List.mem_cons.mp hm2 with rfl | hm2
        · exact le_refl _
        · exact hmax m2 hm2 hsw2
      · right
        refine ⟨m2, List.mem_cons_of_mem m hmem, hsw, lt_trans h.2 hlt, heq, ?_⟩
        intro m3 hm3 hsw3
        rcases List.mem_cons.mp hm3 with rfl | hm3
        · exact le_of_lt hlt
        · exact hmax m3 hm3 hsw3
    · rw [show identStep path (mm, best) m = (mm, best) by
        simp only [identStep]; rw [if_neg h]]
      have hnb : path.startsWith m → m.length ≤ mm := by
        intro hsw
        by_contra hgt
        exact h ⟨hsw, by omega⟩
      rcases ih mm best with ⟨heq, hmax⟩ | ⟨m2, hmem, hsw, hlt, heq, hmax⟩
      · left
        refine ⟨heq, ?_⟩
        intro m2 hm2 hsw2
        rcases List.mem_cons.mp hm2 with rfl | hm2
        · exact hnb hsw2
        · exact hmax m2 hm2 hsw2
      · right
        refine ⟨m2, List.mem_cons_of_mem m hmem, hsw, hlt, heq, ?_⟩
        intro m3 hm3 hsw3
        rcases List.mem_cons.mp hm3 with rfl | hm3
        · exact le_trans (hnb hsw3) (le_of_lt hlt)
        · exact hmax m3 hm3 hsw3

/-- C4 (amended): layer-1 mount resolution is total and returns the
longest *nonempty* mount that is a literal string-prefix of the path;
when every matching mount is the empty string — in particular when none
matches — it returns the `'_unknown'` sentinel.  (The source condition
`len(mount) > max_match` with `max_match` starting at 0 makes an
empty-string mount unmatchable, which is the sole correction to the
claim.) -/
theorem c4_longest_mount (path : String) (mounts : List String) :
    ((∀ m ∈ mounts, path.startsWith m → m = "") → fsKey path mounts = "_unknown") ∧
    ((∃ m ∈ mounts, m ≠ "" ∧ path.startsWith m) →
      fsKey path mounts ∈ mounts ∧ path.startsWith (fsKey path mounts) ∧
      fsKey path mounts ≠ "" ∧
      ∀ m ∈ mounts, path.startsWith m → m.length ≤ (fsKey path mounts).length) := by
  rcases identFold_char path mounts 0 none with ⟨heq, hmax⟩ | ⟨m, hmem, hsw, hlt, heq, hmax⟩
  · constructor
    · intro _
      simp [fsKey, _identify_fs_from_path, heq]
    · rintro ⟨m, hmem, hne, hsw⟩
      exact absurd (string_length_zero (Nat.le_zero.mp (hmax m hmem hsw))) hne
  · have hk : fsKey path mounts = m := by
      simp [fsKey, _identify_fs_from_path, heq]
    constructor
    · intro hall
      have := hall m hmem hsw
      subst this
      simp [String.length] at hlt
    · intro _
      refine ⟨hk ▸ hmem, hk ▸ hsw, ?_, ?_⟩
      · rw [hk]
        intro hemp
        rw [hemp] at hlt
        simp [String.length] at hlt
      · intro m2 hm2 hsw2
        rw [hk]
        exact hmax m2 hm2 hsw2

theorem c4_witness :
    fsKey "/scratch1/file" ["/", "/scratch1"] ∈ (["/", "/scratch1"] : List String) ∧
    ("/scratch1/file").startsWith (fsKey "/scratch1/file" ["/", "/scratch1"]) ∧
    fsKey "/scratch1/file" ["/", "/scratch1"] ≠ "" ∧
    ∀ m ∈ (["/", "/scratch1"] : List String),
      ("/scratch1/file").startsWith m → m.length ≤ (fsKey "/scratch1/file" ["/", "/scratch1"]).length :=
  (c4_longest_mount "/scratch1/file" ["/", "/scratch1"]).2
    ⟨"/scratch1", by decide, by decide, by with_unfolding_all decide⟩

/-- C4 counterexample: with the mount table `[""]` the empty mount *is*
a literal string-prefix of `"/x"`, yet the resolver returns the
`'_unknown'` sentinel instead of that longest matching mount — the claim
as stated fails for empty-string mounts. -/
theorem c4_counterexample :
    ¬ ((∃ m ∈ ([""] : List String), ("/x").startsWith m ∧ fsKey "/x" [""] = m
          ∧ ∀ m2 ∈ ([""] : List String), ("/x").startsWith m2 → m2.length ≤ m.length)
       ∨ ((∀ m ∈ ([""] : List String), ¬ ("/x").startsWith m) ∧ fsKey "/x" [""] = "_unknown")) := by
  with_unfolding_all decide

theorem apiFold_filter_underscore (files : FileCounters) : ∀ (t : ApiTotals),
    files.foldl
      (fun t p =>
        if p.1.startsWith "_" then t
        else p.2.foldl (fun t2 q => addRecordApi t2 q.2) t) t
      = (files.filter (fun p => !(p.1.startsWith "_"))).foldl
          (fun t p =>
            if p.1.startsWith "_" then t
            else p.2.foldl (fun t2 q => addRecordApi t2 q.2) t) t := by
  induction files with
  | nil => intro t; rfl
  | cons p rest ih =>
    intro t
    by_cases h : p.1.startsWith "_"
    · simp only [List.foldl_cons, List.filter_cons, h, if_pos h, Bool.not_true]
      exact ih t
    · simp only [List.foldl_cons, List.filter_cons,
        Bool.not_eq_true] at *
      rw [if_neg (by simp [h]), if_pos (by simp [h])]
      simp only [List.foldl_cons]
      rw [if_neg (by simp [h])]
      exact ih _

theorem fsFold_filter_synthetic (files : FileCounters) (mounts : List String) :
    ∀ (al : List (String × FsTotals)),
    fsAListOfApi al mounts files
      = fsAListOfApi al mounts
          (files.filter (fun p => !(p.1 == "_perf" || p.1 == "_total"))) := by
  induction files with
  | nil => intro al; rfl
  | cons p rest ih =>
    intro al
    by_cases h : p.1 = "_perf" ∨ p.1 = "_total"
    · have hb : (p.1 == "_perf" || p.1 == "_total") = true := by
        rcases h with h | h <;> simp [h]
      simp only [fsAListOfApi, List.foldl_cons, List.filter_cons, hb, Bool.not_true,
        if_false]
      have hskip : addFileFs al mounts p.1 p.2 = al := by
        simp [addFileFs, h]
      rw [hskip]
      exact ih al
    · have hb : (p.1 == "_perf" || p.1 == "_total") = false := by
        push_neg at h
        simp [h.1, h.2]
      simp only [fsAListOfApi, List.foldl_cons, List.filter_cons, hb, Bool.not_false,
        if_true]
      exact ih _

/-- C3 (amended): in the per-API aggregation (`get_biggest_api`) *every*
file path beginning with an underscore contributes nothing to any byte
total or file count — dropping all such rows leaves the totals
unchanged; in the per-filesystem aggregation (`get_biggest_fs`) exactly
the literal rows `'_perf'` and `'_total'` contribute nothing — dropping
those rows leaves the accumulated `biggest_fs` table unchanged (but
other underscore-prefixed paths do contribute there, see the
counterexample). -/
theorem c3_synthetic_rows (files : FileCounters) (mounts : List String)
    (al : List (String × FsTotals)) :
    apiTotalsOfFiles files
      = apiTotalsOfFiles (files.filter (fun p => !(p.1.startsWith "_"))) ∧
    fsAListOfApi al mounts files
      = fsAListOfApi al mounts
          (files.filter (fun p => !(p.1 == "_perf" || p.1 == "_total"))) :=
  ⟨apiFold_filter_underscore files {}, fsFold_filter_synthetic files mounts al⟩

/-- C3 counterexample: the underscore-prefixed file path `'_x'` *does*
contribute to the per-filesystem byte totals — `get_biggest_fs` only
skips the literal rows `'_perf'` and `'_total'` (source line 198), not
every underscore-prefixed path, so dropping `'_x'` changes the result. -/
theorem c3_counterexample :
    fsAListOfApi [] [] [("_x", [("0", { bytesRead := some 5, bytesWritten := none })])]
      ≠ fsAListOfApi [] []
          (([("_x", [("0", { bytesRead := some 5, bytesWritten := none })])] : FileCounters).filter
            (fun p => !(p.1.startsWith "_"))) ∧
    get_biggest_fs
        { counters := some [("POSIX", [("_x", [("0", { bytesRead := some 5, bytesWritten := none })])])],
          mounts := [],
          header := { nprocs := some 4, start_time := some 100, exe := [] } }
      = .ok (some { biggest_read_fs := "_unknown", biggest_read_fs_bytes := 10,
                    biggest_write_fs := "_unknown", biggest_write_fs_bytes := 0 }) := by
  constructor
  · with_unfolding_all decide
  · with_unfolding_all rfl

theorem lookRead_addAt (al : List (String × FsTotals)) (key : String) (dr dw : Nat) (k : String) :
    lookRead (addAt al key dr dw) k = lookRead al k + (if key = k then dr else 0) := by
  induction al with
  | nil =>
    by_cases h : key = k <;> simp [addAt, lookRead, h]
  | cons p rest ih =>
    obtain ⟨k1, v⟩ := p
    by_cases h1 : k1 = key
    · subst h1
      by_cases h2 : k1 = k
      · subst h2
        simp [addAt, lookRead]
      · simp [addAt, lookRead, h2]
    · by_cases h2 : k1 = k
      · subst h2
        have hne : ¬ key = k1 := fun h => h1 h.symm
        simp [addAt, lookRead, h1, hne]
      · simp [addAt, lookRead, h1, h2, ih]

theorem lookWrite_addAt (al : List (String × FsTotals)) (key : String) (dr dw : Nat) (k : String) :
    lookWrite (addAt al key dr dw) k = lookWrite al k + (if key = k then dw else 0) := by
  induction al with
  | nil =>
    by_cases h : key = k <;> simp [addAt, lookWrite, h]
  | cons p rest ih =>
    obtain ⟨k1, v⟩ := p
    by_cases h1 : k1 = key
    · subst h1
      by_cases h2 : k1 = k
      · subst h2
        simp [addAt, lookWrite]
      · simp [addAt, lookWrite, h2]
    · by_cases h2 : k1 = k
      · subst h2
        have hne : ¬ key = k1 := fun h => h1 h.symm
        simp [addAt, lookWrite, h1, hne]
      · simp [addAt, lookWrite, h1, h2, ih]

theorem lookRead_foldRecords (recs : Records) (key : String) (k : String) :
    ∀ (al : List (String × FsTotals)),
    lookRead (recs.foldl (fun a q => addAt a key (recReadDelta q.2) (recWriteDelta q.2)) al) k
      = lookRead al k + (if key = k then specFileReadSum recs else 0) := by
  induction recs with
  | nil => intro al; simp [specFileReadSum]
  | cons q rest ih =>
    intro al
    simp only [List.foldl_cons]
    rw [ih, lookRead_addAt]
    by_cases h : key = k <;> simp [h, specFileReadSum] <;> omega

theorem lookWrite_foldRecords (recs : Records) (key : String) (k : String) :
    ∀ (al : List (String × FsTotals)),
    lookWrite (recs.foldl (fun a q => addAt a key (recReadDelta q.2) (recWriteDelta q.2)) al) k
      = lookWrite al k + (if key = k then specFileWriteSum recs else 0) := by
  induction recs with
  | nil => intro al; simp [specFileWriteSum]
  | cons q rest ih =>
    intro al
    simp only [List.foldl_cons]
    rw [ih, lookWrite_addAt]
    by_cases h : key = k <;> simp [h, specFileWriteSum] <;> omega

theorem lookRead_addFileFs (al : List (String × FsTotals)) (mounts : List String)
    (fp : String) (recs : Records) (k : String) :
    lookRead (addFileFs al mounts fp recs) k
      = lookRead al k + (if fp = "_perf" ∨ fp = "_total" then 0
          else if fsKey fp mounts = k then specFileReadSum recs else 0) := by
  unfold addFileFs
  by_cases h : fp = "_perf" ∨ fp = "_total"
  · simp [h]
  · rw [if_neg h, if_neg h, lookRead_foldRecords]

theorem lookWrite_addFileFs (al : List (String × FsTotals)) (mounts : List String)
    (fp : String) (recs : Records) (k : String) :
    lookWrite (addFileFs al mounts fp recs) k
      = lookWrite al k + (if fp = "_perf" ∨ fp = "_total" then 0
          else if fsKey fp mounts = k then specFileWriteSum recs else 0) := by
  unfold addFileFs
  by_cases h : fp = "_perf" ∨ fp = "_total"
  · simp [h]
  · rw [if_neg h, if_neg h, lookWrite_foldRecords]

theorem lookRead_fsAListOfApi (files : FileCounters) (mounts : List String) (k : String) :
    ∀ (al : List (String × FsTotals)),
    lookRead (fsAListOfApi al mounts files) k = lookRead al k + specApiFsRead files mounts k := by
  induction files with
  | nil => intro al; simp [fsAListOfApi, specApiFsRead]
  | cons p rest ih =>
    intro al
    simp only [fsAListOfApi, List.foldl_cons] at ih ⊢
    rw [ih, lookRead_addFileFs]
    simp only [specApiFsRead, List.map_cons, List.sum_cons]
    omega

theorem lookWrite_fsAListOfApi (files : FileCounters) (mounts : List String) (k : String) :
    ∀ (al : List (String × FsTotals)),
    lookWrite (fsAListOfApi al mounts files) k = lookWrite al k + specApiFsWrite files mounts k := by
  induction files with
  | nil => intro al; simp [fsAListOfApi, specApiFsWrite]
  | cons p rest ih =>
    intro al
    simp only [fsAListOfApi, List.foldl_cons] at ih ⊢
    rw [ih, lookWrite_addFileFs]
    simp only [specApiFsWrite, List.map_cons, List.sum_cons]
    omega

/-- C5 (amended): for every filesystem key `k`, the `bytes_read` and
`bytes_written` totals accumulated by `get_biggest_fs` over the
`(dominant read API, dominant write API)` pair equal the sum of the two
per-API declarative totals — the loop `for api_name in
biggest_read_api, biggest_write_api` contributes one full pass *per
pair position*, so when the two dominant APIs coincide every record is
counted twice (not once, as the claim states), and only the literal
rows `'_perf'`/`'_total'` are excluded. -/
theorem c5_fs_totals (mounts : List String) (fcR fcW : FileCounters) (k : String) :
    lookRead (fsAListOfApi (fsAListOfApi [] mounts fcR) mounts fcW) k
      = specApiFsRead fcR mounts k + specApiFsRead fcW mounts k ∧
    lookWrite (fsAListOfApi (fsAListOfApi [] mounts fcR) mounts fcW) k
      = specApiFsWrite fcR mounts k + specApiFsWrite fcW mounts k := by
  constructor
  · rw [lookRead_fsAListOfApi, lookRead_fsAListOfApi]
    simp [lookRead]
  · rw [lookWrite_fsAListOfApi, lookWrite_fsAListOfApi]
    simp [lookWrite]

/-- C5 counterexample: a trace with a single API `POSIX` holding the
single real file `/a` with `BYTES_READ = 3`.  `POSIX` is dominant for
both read and write, the tuple loop of `get_biggest_fs` iterates it
twice, and the reported filesystem read total is `6` — not the
claim's once-counted sum `3`. -/
theorem c5_counterexample :
    get_biggest_fs
        { counters := some [("POSIX", [("/a", [("0", { bytesRead := some 3, bytesWritten := some 0 })])])],
          mounts := [],
          header := { nprocs := some 4, start_time := some 100, exe := [] } }
      = .ok (some { biggest_read_fs := "_unknown", biggest_read_fs_bytes := 6,
                    biggest_write_fs := "_unknown", biggest_write_fs_bytes := 0 }) ∧
    claimFsRead [("POSIX", [("/a", [("0", { bytesRead := some 3, bytesWritten := some 0 })])])]
        [] "POSIX" "POSIX" "_unknown" = 3 ∧
    (6 : Nat) ≠ 3 := by
  refine ⟨?_, ?_, ?_⟩
  · with_unfolding_all rfl
  · with_unfolding_all rfl
  · decide

/-- C6 (amended): when the `counters` key is *absent* both aggregations
return the empty dict `{}`; but when `counters` is present and *empty*,
`max` over the empty `biggest_api` dict raises `ValueError` in
`get_biggest_api`, and `get_biggest_fs` propagates it — an empty (as
opposed to absent) counters mapping fails instead of returning an empty
result. -/
theorem c6_empty_counters (dd : DarshanData) :
    (dd.counters = none → get_biggest_api dd = .ok none ∧ get_biggest_fs dd = .ok none) ∧
    (dd.counters = some [] →
      get_biggest_api dd = .error .valueError ∧ get_biggest_fs dd = .error .valueError) := by
  constructor
  · intro h
    constructor
    · simp [get_biggest_api, h]
    · simp [get_biggest_fs, h]
  · intro h
    have ha : get_biggest_api dd = .error .valueError := by
      simp [get_biggest_api, h, pyMaxBy]
    refine ⟨ha, ?_⟩
    simp [get_biggest_fs, h, ha]

theorem c6_witness :
    get_biggest_api { counters := none } = .ok none ∧
    get_biggest_fs { counters := some [] } = .error .valueError :=
  ⟨((c6_empty_counters { counters := none }).1 rfl).1,
   ((c6_empty_counters { counters := some [] }).2 rfl).2⟩

/-- C6 counterexample: a present-but-empty `counters` mapping makes both
aggregations raise `ValueError` (Python `max` over an empty dict at
lines 173/216) instead of returning the empty result the claim
promises. -/
theorem c6_counterexample :
    get_biggest_api { counters := some [] } = .error PyError.valueError ∧
    get_biggest_fs { counters := some [] } = .error PyError.valueError := by
  exact ⟨rfl, rfl⟩

theorem readWriteDecision_spec (R W : Nat) (a b : String) (c d : Nat) :
    ((readWriteDecision R W a b c d).1 = "read" ↔ R > 10 * W) ∧
    ((readWriteDecision R W a b c d).1 = "write" ↔ W > 10 * R) ∧
    (¬ R > 10 * W → ¬ W > 10 * R →
      readWriteDecision R W a b c d = ("unknown", "unknown", 0)) := by
  unfold readWriteDecision
  by_cases h1 : R > 10 * W
  · rw [if_pos h1]
    exact ⟨by simp [h1],
      ⟨fun h => by simp at h, fun h => absurd h (by omega)⟩,
      fun h _ => absurd h1 h⟩
  · rw [if_neg h1]
    by_cases h2 : W > 10 * R
    · rw [if_pos h2]
      exact ⟨⟨fun h => by simp at h, fun h => absurd h h1⟩,
        by simp [h2], fun _ h => absurd h2 h⟩
    · rw [if_neg h2]
      exact ⟨⟨fun h => by simp at h, fun h => absurd h h1⟩,
        ⟨fun h => by simp at h, fun h => absurd h h2⟩,
        fun _ _ => rfl⟩

theorem classify_ok_elim (rules : List ((String → Bool) × String)) (strftime : Int → String)
    (dd : DarshanData) (lf md : String) (res : ClassificationResult)
    (hok : classify_darshanlog rules strftime dd lf md = .ok res) :
    ∃ api fs n st, get_biggest_api dd = .ok (some api) ∧ get_biggest_fs dd = .ok (some fs)
      ∧ dd.header.nprocs = some n ∧ n ≠ 0 ∧ dd.header.start_time = some st
      ∧ res = classifyCore rules strftime api fs n st dd.header.exe lf md := by
  unfold classify_darshanlog at hok
  cases hapi : get_biggest_api dd with
  | error e => rw [hapi] at hok; simp at hok
  | ok o =>
    cases o with
    | none => rw [hapi] at hok; simp at hok
    | some api =>
      rw [hapi] at hok
      simp only [] at hok
      cases hfs : get_biggest_fs dd with
      | error e => rw [hfs] at hok; simp at hok
      | ok o2 =>
        cases o2 with
        | none => rw [hfs] at hok; simp at hok
        | some fs =>
          rw [hfs] at hok
          simp only [] at hok
          cases hn : dd.header.nprocs with
          | none => rw [hn] at hok; simp at hok
          | some n =>
            rw [hn] at hok
            simp only [] at hok
            by_cases hz : n = 0
            · rw [if_pos hz] at hok; simp at hok
            · rw [if_neg hz] at hok
              cases hst : dd.header.start_time with
              | none => rw [hst] at hok; simp at hok
              | some st =>
                rw [hst] at hok
                simp only [Except.ok.injEq] at hok
                exact ⟨api, fs, n, st, rfl, rfl, rfl, hz, rfl, hok.symm⟩

/-- C1: for every classified trace, the read/write label is `'read'`
exactly when dominant-read-API bytes `R` are strictly greater than
`10 * W` (so `R = 10*W` is not `'read'` and `R = 10*W + 1` is),
`'write'` exactly when `W > 10 * R`, and in every other case
(including `R = W = 0`) the label is `'unknown'`, the attributed
filesystem is the literal string `'unknown'`, and the most-files-touched
count of the decision is 0. -/
theorem c1_read_write_threshold (rules : List ((String → Bool) × String))
    (strftime : Int → String) (dd : DarshanData) (lf md : String)
    (api : ApiResults) (res : ClassificationResult)
    (happi : get_biggest_api dd = .ok (some api))
    (hok : classify_darshanlog rules strftime dd lf md = .ok res) :
    (res.read_or_write = "read"
        ↔ api.biggest_read_api_bytes > 10 * api.biggest_write_api_bytes) ∧
    (res.read_or_write = "write"
        ↔ api.biggest_write_api_bytes > 10 * api.biggest_read_api_bytes) ∧
    (¬ api.biggest_read_api_bytes > 10 * api.biggest_write_api_bytes →
     ¬ api.biggest_write_api_bytes > 10 * api.biggest_read_api_bytes →
      res.read_or_write = "unknown" ∧ res.file_system = "unknown" ∧
      ∀ a b c d, (readWriteDecision api.biggest_read_api_bytes
          api.biggest_write_api_bytes a b c d).2.2 = 0) := by
  obtain ⟨api2, fs, n, st, happi2, hfs, hn, hz, hst, hres⟩ :=
    classify_ok_elim rules strftime dd lf md res hok
  rw [happi] at happi2
  simp only [Except.ok.injEq, Option.some.injEq] at happi2
  subst happi2
  subst hres
  have hrw : (classifyCore rules strftime api fs n st dd.header.exe lf md).read_or_write
      = (readWriteDecision api.biggest_read_api_bytes api.biggest_write_api_bytes
          (MountToFsName.convert rules fs.biggest_read_fs)
          (MountToFsName.convert rules fs.biggest_write_fs)
          api.biggest_read_api_files api.biggest_write_api_files).1 := rfl
  have hfsys : (classifyCore rules strftime api fs n st dd.header.exe lf md).file_system
      = (readWriteDecision api.biggest_read_api_bytes api.biggest_write_api_bytes
          (MountToFsName.convert rules fs.biggest_read_fs)
          (MountToFsName.convert rules fs.biggest_write_fs)
          api.biggest_read_api_files api.biggest_write_api_files).2.1 := rfl
  obtain ⟨s1, s2, s3⟩ := readWriteDecision_spec api.biggest_read_api_bytes
    api.biggest_write_api_bytes
    (MountToFsName.convert rules fs.biggest_read_fs)
    (MountToFsName.convert rules fs.biggest_write_fs)
    api.biggest_read_api_files api.biggest_write_api_files
  refine ⟨hrw ▸ s1, hrw ▸ s2, ?_⟩
  intro hr hw
  refine ⟨?_, ?_, ?_⟩
  · rw [hrw, s3 hr hw]
  · rw [hfsys, s3 hr hw]
  · intro a b c d
    exact congrArg (fun p => p.2.2) ((readWriteDecision_spec _ _ a b c d).2.2 hr hw)

theorem c1_witness :
    exRes1.read_or_write = "unknown" ∧ exRes1.file_system = "unknown" ∧
    (readWriteDecision 0 0 "x" "y" 1 2).2.2 = 0 := by
  have h := c1_read_write_threshold [] (fun _ => "d") exDD1 "l" "m" exApi1 exRes1
    (by with_unfolding_all rfl) (by with_unfolding_all rfl)
  obtain ⟨-, -, h3⟩ := h
  obtain ⟨ha, hb, hc⟩ := h3 (by decide) (by decide)
  exact ⟨ha, hb, hc "x" "y" 1 2⟩

/-- C2: with positive `nprocs`, the access-pattern label is `'fpp'`
exactly when `filesPerProcess = mostFilesTouched / nprocs` is strictly
greater than `0.90`, `'shared'` exactly when it is strictly less than
`0.10`, and `'unknown'` otherwise; in particular a value exactly equal
to `0.90` is not `'fpp'` and exactly `0.10` is not `'shared'`. -/
theorem c2_files_per_proc_threshold (mf : Nat) (n : Int) (hn : 0 < n) :
    (sharedOrFpp mf n = "fpp" ↔ filesPerProc mf n > (0.90 : ℚ)) ∧
    (sharedOrFpp mf n = "shared" ↔ filesPerProc mf n < (0.10 : ℚ)) ∧
    (¬ filesPerProc mf n > (0.90 : ℚ) → ¬ filesPerProc mf n < (0.10 : ℚ) →
        sharedOrFpp mf n = "unknown") ∧
    (filesPerProc mf n = (0.90 : ℚ) → sharedOrFpp mf n ≠ "fpp") ∧
    (filesPerProc mf n = (0.10 : ℚ) → sharedOrFpp mf n ≠ "shared") := by
  unfold sharedOrFpp
  by_cases h1 : filesPerProc mf n > (0.90 : ℚ)
  · rw [if_pos h1]
    refine ⟨by simp [h1], ⟨fun h => by simp at h, fun h2 => absurd h1 (by linarith)⟩,
      fun hna _ => absurd h1 hna, fun he => absurd (he ▸ h1) (lt_irrefl _), fun _ => by simp⟩
  · rw [if_neg h1]
    by_cases h2 : filesPerProc mf n < (0.10 : ℚ)
    · rw [if_pos h2]
      refine ⟨⟨fun h => by simp at h, fun h => absurd h h1⟩, by simp [h2],
        fun _ hnb => absurd h2 hnb, fun _ => by simp,
        fun he => absurd (he ▸ h2) (lt_irrefl _)⟩
    · rw [if_neg h2]
      refine ⟨⟨fun h => by simp at h, fun h => absurd h h1⟩,
        ⟨fun h => by simp at h, fun h => absurd h h2⟩,
        fun _ _ => rfl, fun _ => by simp, fun _ => by simp⟩

theorem c2_witness : sharedOrFpp 9 10 ≠ "fpp" ∧ sharedOrFpp 1 10 ≠ "shared" := by
  constructor
  · exact (c2_files_per_proc_threshold 9 10 (by norm_num)).2.2.2.1
      (by unfold filesPerProc; norm_num)
  · exact (c2_files_per_proc_threshold 1 10 (by norm_num)).2.2.2.2
      (by unfold filesPerProc; norm_num)

/-- C7 (code bug): on a trace whose header lacks `start_time`,
classification does *not* succeed with the date fields omitted — the
`except` handler at source line 123 formats `result['log_file']`, a key
only assigned later at line 126, so the handler itself raises
`KeyError('log_file')` and classification of the trace aborts. -/
theorem c7_missing_start_time_crashes :
    classify_darshanlog [] (fun _ => "1970-01-01")
        { counters := some [("POSIX", [("/a", [("0", { bytesRead := none, bytesWritten := some 1000 })])])],
          mounts := [],
          header := { nprocs := some 4, start_time := none, exe := ["/bin/app"] } }
        "l" "m"
      = .error (PyError.keyError "log_file") := by
  with_unfolding_all rfl

/-- C8 (amended): a *missing* `nprocs` (KeyError at line 109) or a
*zero* `nprocs` (ZeroDivisionError in the float division) makes
classification of that trace a hard per-file failure; a *negative*
`nprocs`, however, is not detected — the division silently produces a
negative ratio, see the counterexample. -/
theorem c8_nprocs_missing_or_zero_fails (rules : List ((String → Bool) × String))
    (strftime : Int → String) (dd : DarshanData) (lf md : String)
    (h : dd.header.nprocs = none ∨ dd.header.nprocs = some 0) :
    (classify_darshanlog rules strftime dd lf md).isOk = false := by
  cases hc : classify_darshanlog rules strftime dd lf md with
  | error e => rfl
  | ok res =>
    obtain ⟨api, fs, n, st, -, -, hn, hz, -, -⟩ :=
      classify_ok_elim rules strftime dd lf md res hc
    rcases h with h | h
    · rw [h] at hn
      exact absurd hn (by simp)
    · rw [h] at hn
      simp only [Option.some.injEq] at hn
      exact absurd hn.symm hz

theorem c8_witness :
    (classify_darshanlog [] (fun _ => "d")
        { counters := none, mounts := [],
          header := { nprocs := none, start_time := none, exe := [] } } "l" "m").isOk = false ∧
    (classify_darshanlog [] (fun _ => "d")
        { counters := none, mounts := [],
          header := { nprocs := some 0, start_time := none, exe := [] } } "l" "m").isOk = false :=
  ⟨c8_nprocs_missing_or_zero_fails [] (fun _ => "d")
      { counters := none, mounts := [],
        header := { nprocs := none, start_time := none, exe := [] } } "l" "m" (Or.inl rfl),
   c8_nprocs_missing_or_zero_fails [] (fun _ => "d")
      { counters := none, mounts := [],
        header := { nprocs := some 0, start_time := none, exe := [] } } "l" "m" (Or.inr rfl)⟩

/-- C8 counterexample: with `nprocs = -4` classification is *not* a hard
failure — the float division silently yields a negative
`files_per_proc`, which falls in the `< 0.10` branch, and a full
classification result labelled `'shared'` is produced. -/
theorem c8_counterexample :
    classify_darshanlog [] (fun _ => "d")
        { counters := some [("POSIX", [("/a", [("0", { bytesRead := none, bytesWritten := some 1000 })])])],
          mounts := [],
          header := { nprocs := some (-4), start_time := some 5, exe := ["/bin/app"] } }
        "l" "m"
      = .ok { read_or_write := "write", file_system := "_unknown", compute_system := "unknown",
              shared_or_fpp := "shared", date := some "d", start_time := some 5,
              log_file := "l", md5 := "m", application := some "app" } := by
  with_unfolding_all rfl

/-- C10 (implicit): whenever classification succeeds with positive
`nprocs` and the read/write label is `'unknown'`, the access-pattern
label is necessarily `'shared'` — the `'unknown'` branch forces
`most_files = 0`, so `files_per_proc = 0 / nprocs = 0 < 0.10`; a
mixed-mode run is never labelled `'fpp'` or access-pattern
`'unknown'`. -/
theorem c10_unknown_forces_shared (rules : List ((String → Bool) × String))
    (strftime : Int → String) (dd : DarshanData) (lf md : String)
    (res : ClassificationResult) (n : Int)
    (hn : dd.header.nprocs = some n) (hpos : 0 < n)
    (hok : classify_darshanlog rules strftime dd lf md = .ok res)
    (hun : res.read_or_write = "unknown") :
    res.shared_or_fpp = "shared" := by
  obtain ⟨api, fs, n2, st, happi, hfs, hn2, hz, hst, hres⟩ :=
    classify_ok_elim rules strftime dd lf md res hok
  subst hres
  have hrw : (readWriteDecision api.biggest_read_api_bytes api.biggest_write_api_bytes
      (MountToFsName.convert rules fs.biggest_read_fs)
      (MountToFsName.convert rules fs.biggest_write_fs)
      api.biggest_read_api_files api.biggest_write_api_files).1 = "unknown" := hun
  obtain ⟨s1, s2, s3⟩ := readWriteDecision_spec api.biggest_read_api_bytes
    api.biggest_write_api_bytes
    (MountToFsName.convert rules fs.biggest_read_fs)
    (MountToFsName.convert rules fs.biggest_write_fs)
    api.biggest_read_api_files api.biggest_write_api_files
  have hnr : ¬ api.biggest_read_api_bytes > 10 * api.biggest_write_api_bytes := by
    intro h
    have hread := s1.mpr h
    rw [hrw] at hread
    simp at hread
  have hnw : ¬ api.biggest_write_api_bytes > 10 * api.biggest_read_api_bytes := by
    intro h
    have hwrite := s2.mpr h
    rw [hrw] at hwrite
    simp at hwrite
  have hd := s3 hnr hnw
  have hs : (classifyCore rules strftime api fs n2 st dd.header.exe lf md).shared_or_fpp
      = sharedOrFpp (readWriteDecision api.biggest_read_api_bytes api.biggest_write_api_bytes
          (MountToFsName.convert rules fs.biggest_read_fs)
          (MountToFsName.convert rules fs.biggest_write_fs)
          api.biggest_read_api_files api.biggest_write_api_files).2.2 n2 := rfl
  rw [hs, congrArg (fun p => p.2.2) hd]
  unfold sharedOrFpp filesPerProc
  norm_num

theorem c10_witness : exRes1.shared_or_fpp = "shared" :=
  c10_unknown_forces_shared [] (fun _ => "d") exDD1 "l" "m" exRes1 4 rfl
    (by norm_num) (by with_unfolding_all rfl) rfl
